import Mathlib

/-!
Verification of the ICMPv6 message classifier in
`src/layers/network/icmpv6.c` (NetStalker).

The file embeds the two functions of the unit — `message_handler`, which
dispatches on the 8-bit ICMPv6 type, validates the 8-bit code against the
type's rule and produces one diagnostic line, and `cast_icmp6`, the outer
packet entry point — together with the four static message tables, and
proves properties of the type/code classification.
-/

namespace NetStalker

/-- ICMPv6 header as consumed by the unit: only the 8-bit `icmp6_type` and
`icmp6_code` fields are inspected (checksum and body are never read). -/
structure Icmp6Hdr where
  icmp6_type : Nat
  icmp6_code : Nat
deriving DecidableEq

/-- `ICMP6_DST_UNREACH` from `<netinet/icmp6.h>`. -/
def ICMP6_DST_UNREACH : Nat := 1

/-- `ICMP6_PACKET_TOO_BIG` from `<netinet/icmp6.h>`. -/
def ICMP6_PACKET_TOO_BIG : Nat := 2

/-- `ICMP6_TIME_EXCEEDED` from `<netinet/icmp6.h>`. -/
def ICMP6_TIME_EXCEEDED : Nat := 3

/-- `ICMP6_PARAM_PROB` from `<netinet/icmp6.h>`. -/
def ICMP6_PARAM_PROB : Nat := 4

/-- `ICMP6_ECHO_REQUEST` from `<netinet/icmp6.h>`. -/
def ICMP6_ECHO_REQUEST : Nat := 128

/-- `ICMP6_ECHO_REPLY` from `<netinet/icmp6.h>`. -/
def ICMP6_ECHO_REPLY : Nat := 129

/-- `MLD_LISTENER_QUERY` from `<netinet/icmp6.h>`. -/
def MLD_LISTENER_QUERY : Nat := 130

/-- `MLD_LISTENER_REPORT` from `<netinet/icmp6.h>`. -/
def MLD_LISTENER_REPORT : Nat := 131

/-- `MLD_LISTENER_REDUCTION` from `<netinet/icmp6.h>`. -/
def MLD_LISTENER_REDUCTION : Nat := 132

/-- `ND_ROUTER_SOLICIT` from `<netinet/icmp6.h>`. -/
def ND_ROUTER_SOLICIT : Nat := 133

/-- `ND_ROUTER_ADVERT` from `<netinet/icmp6.h>`. -/
def ND_ROUTER_ADVERT : Nat := 134

/-- `ND_NEIGHBOR_SOLICIT` from `<netinet/icmp6.h>`. -/
def ND_NEIGHBOR_SOLICIT : Nat := 135

/-- `ND_NEIGHBOR_ADVERT` from `<netinet/icmp6.h>`. -/
def ND_NEIGHBOR_ADVERT : Nat := 136

/-- `ND_REDIRECT` from `<netinet/icmp6.h>`. -/
def ND_REDIRECT : Nat := 137

/-- `ICMP6_ROUTER_RENUMBERING` from `<netinet/icmp6.h>`. -/
def ICMP6_ROUTER_RENUMBERING : Nat := 138

/-- Modelled from the spec: the constant is declared in the repository
header `icmpv6.h`, which is not among the provided sources; the spec
assigns the recognized types their RFC/IANA numbers (Node Information
Query is ICMPv6 type 139). -/
def ICMP6_NODE_INFORMATION_QUERY : Nat := 139

/-- Modelled from the spec: declared in the missing repository header
`icmpv6.h`; IANA assigns Node Information Response type 140. -/
def ICMP6_NODE_INFORMATION_RESPONSE : Nat := 140

/-- Modelled from the spec: declared in the missing repository header
`icmpv6.h`; IANA assigns Inverse ND Solicitation type 141. -/
def ICMP6_INVERSE_NEIGHBOR_DISCOVERY_SOLICITATION_MESSAGE : Nat := 141

/-- Modelled from the spec: declared in the missing repository header
`icmpv6.h`; IANA assigns Inverse ND Advertisement type 142. -/
def ICMP6_INVERSE_NEIGHBOR_DISCOVERY_ADVERTISEMENT_MESSAGE : Nat := 142

/-- Modelled from the spec: declared in the missing repository header
`icmpv6.h`; IANA assigns MLDv2 Listener Reports type 143. -/
def ICMP6_MULTICAST_LISTENER_DISCOVERY_REPORTS : Nat := 143

/-- Modelled from the spec: declared in the missing repository header
`icmpv6.h`; IANA assigns Home Agent Address Discovery Request type 144. -/
def ICMP6_HOME_AGENT_ADDRESS_DISCOVERY_REQUEST : Nat := 144

/-- Modelled from the spec: declared in the missing repository header
`icmpv6.h`; IANA assigns Home Agent Address Discovery Reply type 145. -/
def ICMP6_HOME_AGENT_ADDRESS_DISCOVERY_REPLY : Nat := 145

/-- Modelled from the spec: declared in the missing repository header
`icmpv6.h`; IANA assigns Mobile Prefix Solicitation type 146. -/
def ICMP6_MOBILE_PREFIX_SOLICITATION : Nat := 146

/-- Modelled from the spec: declared in the missing repository header
`icmpv6.h`; IANA assigns Mobile Prefix Advertisement type 147. -/
def ICMP6_MOBILE_PREFIX_ADVERTISEMENT : Nat := 147

/-- Modelled from the spec: declared in the missing repository header
`icmpv6.h`; IANA assigns Certification Path Solicitation type 148. -/
def ICMP6_CERTIFICATION_PATH_SOLICITATION : Nat := 148

/-- Modelled from the spec: declared in the missing repository header
`icmpv6.h`; IANA assigns Certification Path Advertisement type 149. -/
def ICMP6_CERTIFICATION_PATH_ADVERTISEMENT : Nat := 149

/-- Modelled from the spec: declared in the missing repository header
`icmpv6.h`; IANA assigns Multicast Router Advertisement type 151. -/
def ICMP6_MULTICAST_ROUTER_ADVERTISEMENT : Nat := 151

/-- Modelled from the spec: declared in the missing repository header
`icmpv6.h`; IANA assigns Multicast Router Solicitation type 152. -/
def ICMP6_MULTICAST_ROUTER_SOLICITATION : Nat := 152

/-- Modelled from the spec: declared in the missing repository header
`icmpv6.h`; IANA assigns Multicast Router Termination type 153. -/
def ICMP6_MULTICAST_ROUTER_TERMINATION : Nat := 153

/-- Modelled from the spec: declared in the missing repository header
`icmpv6.h`; IANA assigns the RPL Control Message type 155. -/
def ICMP6_RPL_CONTROL_MESSAGE : Nat := 155

/-- Modelled from the spec: declared in the missing repository header
`icmpv6.h`; IANA assigns Extended Echo Request type 160. -/
def ICMPV6_EXT_ECHO_REQUEST : Nat := 160

/-- Modelled from the spec: declared in the missing repository header
`icmpv6.h`; IANA assigns Extended Echo Reply type 161. -/
def ICMPV6_EXT_ECHO_REPLY : Nat := 161

/-- The static array `destination_unreachable_message_v6` (7 entries). -/
def destination_unreachable_message_v6 : List String :=
  ["No route to destination",
   "Communication with destination administratively prohibited",
   "Beyond scope of source address",
   "Port unreachable",
   "Source address failed ingress/egress policy",
   "Reject route to destination",
   "Error in source routing header"]

/-- The static array `time_exceeded_message_v6` (2 entries). -/
def time_exceeded_message_v6 : List String :=
  ["Hop limit exceeded in transit", "Fragment reassembly time exceeded"]

/-- The static array `bad_ip_header_message_v6` (3 entries). -/
def bad_ip_header_message_v6 : List String :=
  ["Erroneous header field encountered",
   "Unrecognized Next Header type encountered",
   "Unrecognized IPv6 option encountered"]

/-- The static array `extended_echo_reply_message_v6` (5 entries; the last
entry carries the source's spelling). -/
def extended_echo_reply_message_v6 : List String :=
  ["No error", "Malformed query", "No such interface", "No such table entry",
   "Multipe interfaces satisfy query"]

/-- Observable outcome of one `message_handler` call:
`ok line` — the description line written to stdout, the function returns 0;
`invalidCode line` — the line written to stderr before `return (-1)`;
`unknownType v` — the default branch, which writes
`"Unknown ICMP type. ICMP TYPE: 0x%x"` to stderr with `v` as the formatted
argument, and returns 0;
`undefinedRead` — a message-table access past the end of the array
(undefined behavior in the C source). -/
inductive HandlerResult where
  | ok (line : String)
  | invalidCode (line : String)
  | unknownType (reported : Nat)
  | undefinedRead
deriving DecidableEq

/-- `true` exactly on the success (`ok`) outcome. -/
def HandlerResult.isOk : HandlerResult → Bool
  | .ok _ => true
  | _ => false

/-- `true` exactly on the `invalidCode` outcome. -/
def HandlerResult.isInvalidCode : HandlerResult → Bool
  | .invalidCode _ => true
  | _ => false

/-- Embedding of `message_handler` (icmpv6.c:47-284): a switch on
`icmp6_type`; each recognized case checks `icmp6_code` against its guard and
either fails with the stderr line of that case, or prints its description —
indexing the case's message table by `icmp6_code` where one exists.  A table
access with no entry at the index is the C source's out-of-bounds read,
returned as `undefinedRead`.  The default case reports an unknown type,
formatting `icmp6_code` (as the source does). -/
def message_handler (icmp6 : Icmp6Hdr) : HandlerResult :=
  if icmp6.icmp6_type = ICMP6_DST_UNREACH then
    if icmp6.icmp6_code > 7 then .invalidCode "Bad ICMP6 code\n"
    else
      match destination_unreachable_message_v6.get? icmp6.icmp6_code with
      | some s => .ok ("ICMP6 Destination Unreachable: " ++ s ++ "\n")
      | none => .undefinedRead
  else if icmp6.icmp6_type = ICMP6_PACKET_TOO_BIG then
    if icmp6.icmp6_code > 0 then .invalidCode "Bad ICMP6 code\n"
    else .ok "ICMP6 Packet too big\n"
  else if icmp6.icmp6_type = ICMP6_TIME_EXCEEDED then
    if icmp6.icmp6_code > 0 then .invalidCode "Bad ICMP code\n"
    else
      match time_exceeded_message_v6.get? icmp6.icmp6_code with
      | some s => .ok ("ICMP6 Time Exceeded: " ++ s ++ "\n")
      | none => .undefinedRead
  else if icmp6.icmp6_type = ICMP6_PARAM_PROB then
    if icmp6.icmp6_code > 0 then .invalidCode "Bad ICMP code\n"
    else
      match bad_ip_header_message_v6.get? icmp6.icmp6_code with
      | some s => .ok ("ICMP6 Bad IP header: " ++ s ++ "\n")
      | none => .undefinedRead
  else if icmp6.icmp6_type = ICMP6_ECHO_REQUEST then
    if icmp6.icmp6_code > 0 then .invalidCode "Bad ICMP code\n"
    else .ok "ICMP6 Echo Request"
  else if icmp6.icmp6_type = ICMP6_ECHO_REPLY then
    if icmp6.icmp6_code > 0 then .invalidCode "Bad ICMP code\n"
    else .ok "ICMP6 Echo Reply\n"
  else if icmp6.icmp6_type = MLD_LISTENER_QUERY then
    if icmp6.icmp6_code > 0 then .invalidCode "Bad ICMP code\n"
    else .ok "MLD Multicast Listener Query\n"
  else if icmp6.icmp6_type = MLD_LISTENER_REPORT then
    if icmp6.icmp6_code > 0 then .invalidCode "Bad ICMP code\n"
    else .ok "MLD Multicast Listener Report\n"
  else if icmp6.icmp6_type = MLD_LISTENER_REDUCTION then
    if icmp6.icmp6_code > 0 then .invalidCode "Bad ICMP code\n"
    else .ok "MLD Multicast Listener Done\n"
  else if icmp6.icmp6_type = ND_ROUTER_SOLICIT then
    if icmp6.icmp6_code > 0 then .invalidCode "Bad ICMP code\n"
    else .ok "NDP Router Solicitation\n"
  else if icmp6.icmp6_type = ND_ROUTER_ADVERT then
    if icmp6.icmp6_code > 0 then .invalidCode "Bad ICMP code\n"
    else .ok "NDP Router Advertisement\n"
  else if icmp6.icmp6_type = ND_NEIGHBOR_SOLICIT then
    if icmp6.icmp6_code > 0 then .invalidCode "Bad ICMP code\n"
    else .ok "NDP Neighbor Solicitation\n"
  else if icmp6.icmp6_type = ND_NEIGHBOR_ADVERT then
    if icmp6.icmp6_code > 0 then .invalidCode "Bad ICMP code\n"
    else .ok "NDP Neighbor Advertisement\n"
  else if icmp6.icmp6_type = ND_REDIRECT then
    if icmp6.icmp6_code > 0 then .invalidCode "Bad ICMP code\n"
    else .ok "NDP Redirect Message\n"
  else if icmp6.icmp6_type = ICMP6_ROUTER_RENUMBERING then
    if icmp6.icmp6_code > 1 ∧ icmp6.icmp6_code < 255 then
      .invalidCode "Bad ICMP code\n"
    else .ok "ICMP6 Router Renumbering\n"
  else if icmp6.icmp6_type = ICMP6_NODE_INFORMATION_QUERY then
    if icmp6.icmp6_code > 2 then .invalidCode "Bad ICMP code\n"
    else .ok "ICMP6 Node Information Query\n"
  else if icmp6.icmp6_type = ICMP6_NODE_INFORMATION_RESPONSE then
    if icmp6.icmp6_code > 2 then .invalidCode "Bad ICMP code\n"
    else .ok "ICMP6 Node Information Response\n"
  else if icmp6.icmp6_type = ICMP6_INVERSE_NEIGHBOR_DISCOVERY_SOLICITATION_MESSAGE then
    if icmp6.icmp6_code > 0 then .invalidCode "Bad ICMP code\n"
    else .ok "ICMP6 Inverse Neighbor Discovery Solicitation message\n"
  else if icmp6.icmp6_type = ICMP6_INVERSE_NEIGHBOR_DISCOVERY_ADVERTISEMENT_MESSAGE then
    if icmp6.icmp6_code > 0 then .invalidCode "Bad ICMP code\n"
    else .ok "ICMP6 Inverse Neighbor Discovery Advertisement messsage\n"
  else if icmp6.icmp6_type = ICMP6_MULTICAST_LISTENER_DISCOVERY_REPORTS then
    if icmp6.icmp6_code > 0 then .invalidCode "Bad ICMP code\n"
    else .ok "ICMP6 Multicast Listener Discovery Reports\n"
  else if icmp6.icmp6_type = ICMP6_HOME_AGENT_ADDRESS_DISCOVERY_REQUEST then
    if icmp6.icmp6_code > 0 then .invalidCode "Bad ICMP code\n"
    else .ok "ICMP6 Home Agent Address Discovery Request\n"
  else if icmp6.icmp6_type = ICMP6_HOME_AGENT_ADDRESS_DISCOVERY_REPLY then
    if icmp6.icmp6_code > 0 then .invalidCode "Bad ICMP code\n"
    else .ok "ICMP6 Home Agent Address Discovery Reply\n"
  else if icmp6.icmp6_type = ICMP6_MOBILE_PREFIX_SOLICITATION then
    if icmp6.icmp6_code > 0 then .invalidCode "Bad ICMP code\n"
    else .ok "ICMP6 Mobile Prefix Solicitation\n"
  else if icmp6.icmp6_type = ICMP6_MOBILE_PREFIX_ADVERTISEMENT then
    if icmp6.icmp6_code > 0 then .invalidCode "Bad ICMP code\n"
    else .ok "ICMP6 Mobile Prefix Advertisement\n"
  else if icmp6.icmp6_type = ICMP6_CERTIFICATION_PATH_SOLICITATION then
    if icmp6.icmp6_code > 0 then .invalidCode "Bad ICMP code\n"
    else .ok "ICMP6 Certififcation Path Solicitation\n"
  else if icmp6.icmp6_type = ICMP6_CERTIFICATION_PATH_ADVERTISEMENT then
    if icmp6.icmp6_code > 0 then .invalidCode "Bad ICMP code\n"
    else .ok "ICMP6 Certification Path Advertisement\n"
  else if icmp6.icmp6_type = ICMP6_MULTICAST_ROUTER_SOLICITATION then
    if icmp6.icmp6_code > 0 then .invalidCode "Bad ICMP code\n"
    else .ok "ICMP6 Multicast Router Solicitation\n"
  else if icmp6.icmp6_type = ICMP6_MULTICAST_ROUTER_ADVERTISEMENT then
    if icmp6.icmp6_code > 0 then .invalidCode "Bad ICMP code\n"
    else .ok "ICMP6 Multicast Router Advertisement\n"
  else if icmp6.icmp6_type = ICMP6_MULTICAST_ROUTER_TERMINATION then
    if icmp6.icmp6_code > 0 then .invalidCode "Bad ICMP code\n"
    else .ok "ICMP6 Multicast Router Termination\n"
  else if icmp6.icmp6_type = ICMP6_RPL_CONTROL_MESSAGE then
    if icmp6.icmp6_code > 0 then .invalidCode "Bad ICMP code\n"
    else .ok "ICMP6 RPL Control Message\n"
  else if icmp6.icmp6_type = ICMPV6_EXT_ECHO_REQUEST then
    if icmp6.icmp6_code > 0 then .invalidCode "Bad ICMP code\n"
    else .ok "ICMP6 Extended Echo Request\n"
  else if icmp6.icmp6_type = ICMPV6_EXT_ECHO_REPLY then
    if icmp6.icmp6_code > 0 then .invalidCode "Bad ICMP code\n"
    else
      match extended_echo_reply_message_v6.get? icmp6.icmp6_code with
      | some s => .ok ("ICMP6 Extended Echo Reply: " ++ s ++ "\n")
      | none => .undefinedRead
  else .unknownType icmp6.icmp6_code

/-- The `int` value `message_handler` returns: `-1` on a failed code check,
`0` everywhere else; `none` when the call runs into the out-of-bounds table
read, whose behavior C leaves undefined. -/
def message_handler_ret (icmp6 : Icmp6Hdr) : Option Int :=
  match message_handler icmp6 with
  | .ok _ => some 0
  | .invalidCode _ => some (-1)
  | .unknownType _ => some 0
  | .undefinedRead => none

/-- Embedding of `cast_icmp6` (icmpv6.c:296-302): reinterprets the packet
start as the ICMPv6 header, runs `message_handler` on it, discards its
result and returns 0.  The pair records the classification outcome the call
produces alongside the returned status. -/
def cast_icmp6 (icmp6 : Icmp6Hdr) : HandlerResult × Int :=
  (message_handler icmp6, 0)

/-- The 32 type values that have a case in the switch, in source order. -/
def recognized_types : List Nat :=
  [ICMP6_DST_UNREACH, ICMP6_PACKET_TOO_BIG, ICMP6_TIME_EXCEEDED,
   ICMP6_PARAM_PROB, ICMP6_ECHO_REQUEST, ICMP6_ECHO_REPLY,
   MLD_LISTENER_QUERY, MLD_LISTENER_REPORT, MLD_LISTENER_REDUCTION,
   ND_ROUTER_SOLICIT, ND_ROUTER_ADVERT, ND_NEIGHBOR_SOLICIT,
   ND_NEIGHBOR_ADVERT, ND_REDIRECT, ICMP6_ROUTER_RENUMBERING,
   ICMP6_NODE_INFORMATION_QUERY, ICMP6_NODE_INFORMATION_RESPONSE,
   ICMP6_INVERSE_NEIGHBOR_DISCOVERY_SOLICITATION_MESSAGE,
   ICMP6_INVERSE_NEIGHBOR_DISCOVERY_ADVERTISEMENT_MESSAGE,
   ICMP6_MULTICAST_LISTENER_DISCOVERY_REPORTS,
   ICMP6_HOME_AGENT_ADDRESS_DISCOVERY_REQUEST,
   ICMP6_HOME_AGENT_ADDRESS_DISCOVERY_REPLY,
   ICMP6_MOBILE_PREFIX_SOLICITATION, ICMP6_MOBILE_PREFIX_ADVERTISEMENT,
   ICMP6_CERTIFICATION_PATH_SOLICITATION,
   ICMP6_CERTIFICATION_PATH_ADVERTISEMENT,
   ICMP6_MULTICAST_ROUTER_SOLICITATION,
   ICMP6_MULTICAST_ROUTER_ADVERTISEMENT,
   ICMP6_MULTICAST_ROUTER_TERMINATION,
   ICMP6_RPL_CONTROL_MESSAGE, ICMPV6_EXT_ECHO_REQUEST,
   ICMPV6_EXT_ECHO_REPLY]

/-- `true` exactly when the type value has a case in the switch. -/
def recognized (t : Nat) : Bool :=
  decide (t ∈ recognized_types)

/-- The code guard of each recognized case, exactly as written in the
switch: `true` when the case takes its `return (-1)` branch. -/
def code_check_fails (t c : Nat) : Bool :=
  if t = ICMP6_DST_UNREACH then c > 7
  else if t = ICMP6_ROUTER_RENUMBERING then c > 1 && c < 255
  else if t = ICMP6_NODE_INFORMATION_QUERY then c > 2
  else if t = ICMP6_NODE_INFORMATION_RESPONSE then c > 2
  else if recognized t then c > 0
  else false

/-- The 25 recognized types whose code policy the spec lists as "code must
be exactly 0". -/
def fixed_code_types : List Nat :=
  [ICMP6_PACKET_TOO_BIG, ICMP6_ECHO_REQUEST, ICMP6_ECHO_REPLY,
   MLD_LISTENER_QUERY, MLD_LISTENER_REPORT, MLD_LISTENER_REDUCTION,
   ICMP6_MULTICAST_LISTENER_DISCOVERY_REPORTS,
   ND_ROUTER_SOLICIT, ND_ROUTER_ADVERT, ND_NEIGHBOR_SOLICIT,
   ND_NEIGHBOR_ADVERT, ND_REDIRECT,
   ICMP6_RPL_CONTROL_MESSAGE,
   ICMP6_HOME_AGENT_ADDRESS_DISCOVERY_REQUEST,
   ICMP6_HOME_AGENT_ADDRESS_DISCOVERY_REPLY,
   ICMP6_MOBILE_PREFIX_SOLICITATION, ICMP6_MOBILE_PREFIX_ADVERTISEMENT,
   ICMP6_CERTIFICATION_PATH_SOLICITATION,
   ICMP6_CERTIFICATION_PATH_ADVERTISEMENT,
   ICMP6_MULTICAST_ROUTER_SOLICITATION,
   ICMP6_MULTICAST_ROUTER_ADVERTISEMENT,
   ICMP6_MULTICAST_ROUTER_TERMINATION,
   ICMP6_INVERSE_NEIGHBOR_DISCOVERY_SOLICITATION_MESSAGE,
   ICMP6_INVERSE_NEIGHBOR_DISCOVERY_ADVERTISEMENT_MESSAGE,
   ICMPV6_EXT_ECHO_REQUEST]

set_option maxRecDepth 8192

set_option maxHeartbeats 2000000

/-- Any type value outside the 32 recognized constants falls through every
case of the switch to the default branch, which reports `icmp6_code` as the
unknown value and returns 0. -/
theorem message_handler_default (t c : Nat) (h : t ∉ recognized_types) :
    message_handler ⟨t, c⟩ = HandlerResult.unknownType c := by
  simp only [recognized_types, List.mem_cons, List.not_mem_nil, or_false,
    not_or] at h
  obtain ⟨h1, h2, h3, h4, h5, h6, h7, h8, h9, h10, h11, h12, h13, h14, h15,
    h16, h17, h18, h19, h20, h21, h22, h23, h24, h25, h26, h27, h28, h29,
    h30, h31, h32⟩ := h
  simp [message_handler, h1, h2, h3, h4, h5, h6, h7, h8, h9, h10, h11, h12,
    h13, h14, h15, h16, h17, h18, h19, h20, h21, h22, h23, h24, h25, h26,
    h27, h28, h29, h30, h31, h32]

/-- Claim C1: the claim says Destination Unreachable yields the table entry
for codes 0..6 and InvalidCode for codes 7..255.  The source guard is
`icmp6_code > 7`, so code 7 passes validation and
`destination_unreachable_message_v6[7]` is read past the end of the
7-entry array — undefined behavior, not InvalidCode. -/
theorem c1_dst_unreach_code_seven_reads_past_table :
    message_handler ⟨ICMP6_DST_UNREACH, 7⟩ = HandlerResult.undefinedRead ∧
    destination_unreachable_message_v6.length = 7 := by decide

/-- Claim C2: the claim says every array lookup `message_handler` performs
is in bounds.  At type Destination Unreachable, code 7, the lookup index 7
has no entry in the 7-entry table, so the out-of-bounds branch of the
embedding is reached. -/
theorem c2_lookup_out_of_bounds_at_dst_unreach_seven :
    message_handler ⟨ICMP6_DST_UNREACH, 7⟩ = HandlerResult.undefinedRead ∧
    destination_unreachable_message_v6.get? 7 = none := by decide

/-- Claim C3: the claim says Time Exceeded accepts codes 0 and 1.  The
source guard is `icmp6_code > 0`, so code 1 is rejected with InvalidCode
even though the 2-entry table defines the message for index 1. -/
theorem c3_time_exceeded_code_one_rejected :
    message_handler ⟨ICMP6_TIME_EXCEEDED, 1⟩ =
      HandlerResult.invalidCode "Bad ICMP code\n" ∧
    time_exceeded_message_v6.get? 1 =
      some "Fragment reassembly time exceeded" := by decide

/-- Claim C4: the claim says Parameter Problem accepts codes 0..2.  The
source guard is `icmp6_code > 0`, so codes 1 and 2 are rejected with
InvalidCode even though the 3-entry table defines their messages. -/
theorem c4_param_prob_code_one_rejected :
    message_handler ⟨ICMP6_PARAM_PROB, 1⟩ =
      HandlerResult.invalidCode "Bad ICMP code\n" ∧
    bad_ip_header_message_v6.get? 1 =
      some "Unrecognized Next Header type encountered" := by decide

/-- Claim C5: the claim says Extended Echo Reply accepts codes 0..4 with
the listed strings.  The source guard is `icmp6_code > 0`, so codes 1..4
are rejected with InvalidCode even though the 5-entry table defines their
messages; moreover the table entry at index 4 is spelled
"Multipe interfaces satisfy query" in the source, not
"Multiple interfaces satisfy query". -/
theorem c5_extended_echo_reply_code_one_rejected :
    message_handler ⟨ICMPV6_EXT_ECHO_REPLY, 1⟩ =
      HandlerResult.invalidCode "Bad ICMP code\n" ∧
    extended_echo_reply_message_v6.get? 1 = some "Malformed query" ∧
    extended_echo_reply_message_v6.get? 4 =
      some "Multipe interfaces satisfy query" := by decide

/-- Claim C6: for type Router Renumbering, classification succeeds exactly
for codes 0, 1 and 255, and every code in 2..254 yields InvalidCode. -/
theorem c6_router_renumbering_codes (c : Nat) (hc : c < 256) :
    (message_handler ⟨ICMP6_ROUTER_RENUMBERING, c⟩ =
        HandlerResult.ok "ICMP6 Router Renumbering\n" ↔
      c = 0 ∨ c = 1 ∨ c = 255) ∧
    (2 ≤ c → c ≤ 254 →
      message_handler ⟨ICMP6_ROUTER_RENUMBERING, c⟩ =
        HandlerResult.invalidCode "Bad ICMP code\n") := by
  revert c
  decide

/-- Witness for claim C6's theorem at codes 255 and 2. -/
theorem c6_router_renumbering_codes_witness :
    message_handler ⟨ICMP6_ROUTER_RENUMBERING, 255⟩ =
      HandlerResult.ok "ICMP6 Router Renumbering\n" ∧
    message_handler ⟨ICMP6_ROUTER_RENUMBERING, 2⟩ =
      HandlerResult.invalidCode "Bad ICMP code\n" :=
  ⟨(c6_router_renumbering_codes 255 (by decide)).1.mpr
      (Or.inr (Or.inr rfl)),
   (c6_router_renumbering_codes 2 (by decide)).2 (by decide) (by decide)⟩

/-- Claim C7: for every recognized type with a fixed-code policy and every
8-bit code, classification succeeds exactly when the code is 0 and yields
InvalidCode otherwise. -/
theorem c7_fixed_code_types_succeed_iff_code_zero :
    ∀ t ∈ fixed_code_types, ∀ c < 256,
      ((message_handler ⟨t, c⟩).isOk = true ↔ c = 0) ∧
      (c ≠ 0 → (message_handler ⟨t, c⟩).isInvalidCode = true) := by decide

/-- Witness for claim C7's theorem at Packet Too Big with codes 0 and 1. -/
theorem c7_fixed_code_types_succeed_iff_code_zero_witness :
    (message_handler ⟨ICMP6_PACKET_TOO_BIG, 0⟩).isOk = true ∧
    (message_handler ⟨ICMP6_PACKET_TOO_BIG, 1⟩).isInvalidCode = true :=
  ⟨(c7_fixed_code_types_succeed_iff_code_zero ICMP6_PACKET_TOO_BIG
      (by decide) 0 (by decide)).1.mpr rfl,
   (c7_fixed_code_types_succeed_iff_code_zero ICMP6_PACKET_TOO_BIG
      (by decide) 1 (by decide)).2 (by decide)⟩

/-- Claim C8: the claim says an unrecognized type is reported with the raw
type value.  The default branch of the source passes `icmp6_code` — not
`icmp6_type` — as the value formatted into
"Unknown ICMP type. ICMP TYPE: 0x%x": at type 250 (unassigned) with code
42 the diagnostic reports 42, not 250.  The outcome does return 0, so it
is indeed non-fatal. -/
theorem c8_unknown_type_reports_code_field :
    message_handler ⟨250, 42⟩ = HandlerResult.unknownType 42 ∧
    message_handler_ret ⟨250, 42⟩ = some 0 ∧
    (42 : Nat) ≠ 250 := by decide

/-- Claim C9: `cast_icmp6` returns the "processed" status 0 for every input
header, whatever outcome `message_handler` produced for it. -/
theorem c9_cast_icmp6_always_returns_processed :
    ∀ icmp6 : Icmp6Hdr,
      (cast_icmp6 icmp6).2 = 0 ∧
      (cast_icmp6 icmp6).1 = message_handler icmp6 :=
  fun _ => ⟨rfl, rfl⟩

/-- Witness for claim C9's theorem at a concrete header. -/
theorem c9_cast_icmp6_always_returns_processed_witness :
    (cast_icmp6 ⟨ICMP6_DST_UNREACH, 9⟩).2 = 0 :=
  (c9_cast_icmp6_always_returns_processed ⟨ICMP6_DST_UNREACH, 9⟩).1

/-- Claim C10: over the full 8-bit type and code spaces, the integer
returned by `message_handler` is -1 exactly when the type is recognized and
its code guard fires; for an unrecognized type the function returns 0, the
same value as a successful classification. -/
theorem c10_minus_one_iff_recognized_and_bad_code (t c : Nat)
    (ht : t < 256) (hc : c < 256) :
    (message_handler_ret ⟨t, c⟩ = some (-1) ↔
      (recognized t = true ∧ code_check_fails t c = true)) ∧
    (recognized t = false → message_handler_ret ⟨t, c⟩ = some 0) := by
  by_cases hr : t ∈ recognized_types
  · unfold recognized_types at hr
    fin_cases hr <;> (revert c; decide)
  · have hm := message_handler_default t c hr
    have hret : message_handler_ret ⟨t, c⟩ = some 0 := by
      unfold message_handler_ret
      rw [hm]
    have hf : recognized t = false := by
      simp [recognized, hr]
    refine ⟨?_, fun _ => hret⟩
    rw [hret, hf]
    simp

/-- Witness for claim C10's theorem: a recognized type with a failing code
returns -1, and an unrecognized type returns 0. -/
theorem c10_minus_one_iff_recognized_and_bad_code_witness :
    message_handler_ret ⟨ICMP6_DST_UNREACH, 9⟩ = some (-1) ∧
    message_handler_ret ⟨250, 9⟩ = some 0 :=
  ⟨(c10_minus_one_iff_recognized_and_bad_code ICMP6_DST_UNREACH 9
      (by decide) (by decide)).1.mpr (by decide),
   (c10_minus_one_iff_recognized_and_bad_code 250 9
      (by decide) (by decide)).2 (by decide)⟩

end NetStalker
